import Mathlib

/-!
Shallow embedding of `src/program.py` (an OMF temperature-sensor sender).

External effects (HTTP requests, `json.loads`, `urlparse`, gzip, the clock)
are modelled by explicit oracle records and event traces:

* `TokenOracle` supplies the discovery response and the parse result of the
  token POST response, exactly the observations the Python code makes.
* every function that performs HTTP also returns the list of network `Event`s
  it issued and the (possibly mutated) `Endpoint`, mirroring the in-place
  mutation of the Python endpoint dictionary.
* raised Python exceptions become `Except.error` values carrying the same
  payloads the exception messages carry.
-/

/-- Module constant `ERROR_STRING` of program.py. -/
def ERROR_STRING : String := "Error"

/-- Module constant `TYPE_ID` of program.py. -/
def TYPE_ID : String := "Temperature.Float"

/-- Module constant `CONTAINER_ID` of program.py. -/
def CONTAINER_ID : String := "Sample.Script.SL6658.Temperature"

/-- Module constant `omf_version` of program.py. -/
def omf_version : String := "1.1"

/-- The `EndpointTypes` enum of program.py. -/
inductive EndpointTypes
  | ADH
  | EDS
  | PI
deriving DecidableEq, Repr

/-- A Python value stored in the `EndpointType` key of an endpoint dict:
either a raw string (as read from JSON) or a member of the `EndpointTypes`
enum (after `get_appsettings` converts it).  Python `==` between a string
and an enum member is `False`, which the derived equality also gives. -/
inductive EndpointTypeField
  | str (s : String)
  | enum (t : EndpointTypes)
deriving DecidableEq, Repr

/-- JSON values, used for OMF message payloads (`json.dumps` input). -/
inductive Json
  | str (s : String)
  | num (q : ℚ)
  | bool (b : Bool)
  | null
  | arr (xs : List Json)
  | obj (fields : List (String × Json))
deriving Repr

/-- Result of `urlparse` on the discovered token endpoint: its `scheme`
attribute and the string `geturl()` returns. -/
structure ParsedUrl where
  scheme : String
  url : String
deriving DecidableEq, Repr

/-- The observed response of the discovery GET: HTTP status, body text, and
the result of `json.loads(content)["token_endpoint"]` run through `urlparse`
(`none` when JSON parsing or the key lookup raises). -/
structure DiscoveryResponse where
  status : Int
  body : String
  tokenEndpoint : Option ParsedUrl
deriving DecidableEq, Repr

/-- The observed result of `json.loads` on the token POST response body:
a parse failure, JSON `null`, a non-dict value (subscripting raises
TypeError), or a dict with optional `expires_in` / `access_token` keys. -/
inductive TokenParse
  | parseError
  | parsedNull
  | parsedNonDict
  | parsed (expiresIn : Option ℚ) (accessToken : Option String)
deriving DecidableEq, Repr

/-- Oracle for the two HTTP interactions of `get_token`. -/
structure TokenOracle where
  discovery : DiscoveryResponse
  tokenResp : TokenParse
deriving DecidableEq, Repr

/-- One endpoint dictionary after `get_appsettings` has populated it. -/
structure Endpoint where
  endpointType : EndpointTypeField
  resource : String
  apiVersion : String
  tenantId : String
  namespaceId : String
  clientId : String
  clientSecret : String
  username : String
  password : String
  selected : Bool
  verifySSL : Bool
  useCompression : Bool
  webRequestTimeoutSeconds : Int
  baseEndpoint : String
  omfEndpoint : String
  token : Option String
  expiration : Option ℚ
deriving DecidableEq, Repr

/-- Exceptions `get_token` can raise. -/
inductive TokenError
  | discoveryFailed (status : Int) (body : String)
  | jsonError
  | keyError
  | typeError
  | assertionFailed
  | tokenNone
deriving DecidableEq, Repr

/-- The body handed to `requests.post`: either
`gzip.compress(bytes(json.dumps(payload), 'utf-8'))` or `json.dumps(payload)`.
gzip and JSON serialisation are external encodings, kept abstract by carrying
the payload they encode. -/
inductive MsgBody
  | gzippedJsonUtf8 (payload : Json)
  | rawJson (payload : Json)
deriving Repr

/-- A network call the program issues. -/
inductive Event
  | httpGet (url : String)
  | tokenPost (url : String)
  | omfPost (url : String) (headers : List (String × String)) (body : MsgBody)
      (verify : Option Bool) (auth : Option (String × String))
deriving Repr

/-- Python `endpoint_type != EndpointTypes.ADH` is `False` exactly here:
the comparison of a string with an enum member is never equal. -/
def is_adh_field : EndpointTypeField → Bool
  | .enum .ADH => true
  | _ => false

/-- Structural character-list test that the second list is an initial run
of the first. -/
def starts_with_chars : List Char → List Char → Bool
  | _, [] => true
  | [], _ :: _ => false
  | c :: cs, d :: ds => c == d && starts_with_chars cs ds

/-- Python `s.startswith(t)`, evaluated on the underlying characters. -/
def py_startswith (s t : String) : Bool :=
  starts_with_chars s.data t.data

/-- The cache-miss tail of `get_token` (lines 49-83 of program.py):
discovery GET, status check, token-endpoint validation, credential POST,
parse, cache update. -/
def get_token_fetch (o : TokenOracle) (now : ℚ) (e : Endpoint) :
    Except TokenError String × Endpoint × List Event :=
  let discoveryCall := Event.httpGet (e.resource ++ "/identity/.well-known/openid-configuration")
  if o.discovery.status < 200 ∨ 300 ≤ o.discovery.status then
    (.error (.discoveryFailed o.discovery.status o.discovery.body), e, [discoveryCall])
  else
    match o.discovery.tokenEndpoint with
    | none => (.error .jsonError, e, [discoveryCall])
    | some p =>
      if p.scheme ≠ "https" then
        (.error .assertionFailed, e, [discoveryCall])
      else if ¬ py_startswith p.url e.resource then
        (.error .assertionFailed, e, [discoveryCall])
      else
        match o.tokenResp with
        | .parseError => (.error .jsonError, e, [discoveryCall, Event.tokenPost p.url])
        | .parsedNull => (.error .tokenNone, e, [discoveryCall, Event.tokenPost p.url])
        | .parsedNonDict => (.error .typeError, e, [discoveryCall, Event.tokenPost p.url])
        | .parsed expiresIn accessToken =>
          match expiresIn with
          | none => (.error .keyError, e, [discoveryCall, Event.tokenPost p.url])
          | some x =>
            match accessToken with
            | none => (.error .keyError, e, [discoveryCall, Event.tokenPost p.url])
            | some tok =>
              (.ok tok,
               { e with expiration := some (x + now), token := some tok },
               [discoveryCall, Event.tokenPost p.url])

/-- Function `get_token` of program.py.  `now` is the value of `time.time()`. -/
def get_token (o : TokenOracle) (now : ℚ) (e : Endpoint) :
    Except TokenError String × Endpoint × List Event :=
  if is_adh_field e.endpointType = false then
    (.ok "", e, [])
  else
    match e.expiration with
    | some exp =>
      if exp - now > 5 * 60 then
        match e.token with
        | some t => (.ok t, e, [])
        | none => (.error .keyError, e, [])
      else get_token_fetch o now e
    | none => get_token_fetch o now e

/-- The fixed header allow-list of `get_headers` (line 171 of program.py). -/
def allowed_header_keys : List String :=
  ["Authorization", "messagetype", "action", "messageformat", "omfversion",
   "x-requested-with", "compression"]

/-- The `validated_headers` filtering loop of `get_headers`
(lines 168-172 of program.py). -/
def validate_headers (hs : List (String × String)) : List (String × String) :=
  hs.filter (fun kv => allowed_header_keys.contains kv.1)

/-- The `msg_headers` dict of `get_headers` just before per-kind additions:
the four required headers plus `compression` when the argument is "gzip"
(lines 150-158 of program.py).  Python dicts preserve insertion order, so a
key-distinct association list is a faithful model. -/
def base_headers (compression message_type action : String) : List (String × String) :=
  let required := [("messagetype", message_type), ("action", action),
                   ("messageformat", "JSON"), ("omfversion", omf_version)]
  if compression = "gzip" then required ++ [("compression", "gzip")] else required

/-- Function `get_headers` of program.py (lines 145-174).  For ADH it calls
`get_token`, whose exception propagates and whose cache mutation persists. -/
def get_headers (o : TokenOracle) (now : ℚ) (e : Endpoint)
    (compression message_type action : String) :
    Except TokenError (List (String × String)) × Endpoint × List Event :=
  let required := base_headers compression message_type action
  if is_adh_field e.endpointType then
    match get_token o now e with
    | (.ok t, e2, calls) =>
      (.ok (validate_headers (required ++ [("Authorization", "Bearer " ++ t)])), e2, calls)
    | (.error err, e2, calls) => (.error err, e2, calls)
  else if e.endpointType = EndpointTypeField.enum .PI then
    (.ok (validate_headers (required ++ [("x-requested-with", "xmlhttprequest")])), e, [])
  else
    (.ok (validate_headers required), e, [])

/-- Exceptions `send_message_to_omf_endpoint` can raise: a propagated
`get_token` failure, the non-2xx/non-409 rejection (carrying message type,
status code and response body, as the exception f-string does), or the
AttributeError hit when the endpoint type matches no `EndpointTypes` member
and `response` is still the empty dict `{}` at `response.status_code`. -/
inductive SendError
  | tokenError (err : TokenError)
  | rejected (message_type : String) (status : Int) (body : String)
  | attributeError
deriving DecidableEq, Repr

/-- Response interpretation of `send_message_to_omf_endpoint`
(lines 131-142 of program.py): 409 returns, other statuses outside
[200,300) raise. -/
def omf_response_check (message_type : String) (resp : Int × String)
    (e : Endpoint) (trace : List Event) :
    Except SendError Unit × Endpoint × List Event :=
  if resp.1 = 409 then
    (.ok (), e, trace)
  else if resp.1 < 200 ∨ 300 ≤ resp.1 then
    (.error (.rejected message_type resp.1 resp.2), e, trace)
  else
    (.ok (), e, trace)

/-- Function `send_message_to_omf_endpoint` of program.py (lines 86-142).
`resp` is the status and body of the HTTP response the POST would receive. -/
def send_message_to_omf_endpoint (o : TokenOracle) (now : ℚ) (resp : Int × String)
    (e : Endpoint) (message_type : String) (message_omf_json : Json) (action : String) :
    Except SendError Unit × Endpoint × List Event :=
  let compression := if e.useCompression then "gzip" else "none"
  let msg_body := if e.useCompression then MsgBody.gzippedJsonUtf8 message_omf_json
                  else MsgBody.rawJson message_omf_json
  match get_headers o now e compression message_type action with
  | (.error err, e2, calls) => (.error (.tokenError err), e2, calls)
  | (.ok msg_headers, e2, calls) =>
    match e2.endpointType with
    | .enum .ADH =>
      omf_response_check message_type resp e2
        (calls ++ [Event.omfPost e2.omfEndpoint msg_headers msg_body (some e2.verifySSL) none])
    | .enum .EDS =>
      omf_response_check message_type resp e2
        (calls ++ [Event.omfPost e2.omfEndpoint msg_headers msg_body none none])
    | .enum .PI =>
      omf_response_check message_type resp e2
        (calls ++ [Event.omfPost e2.omfEndpoint msg_headers msg_body (some e2.verifySSL)
          (some (e2.username, e2.password))])
    | .str _ => (.error .attributeError, e2, calls)

/-- The OMF type-message payload sent by `one_time_send_type`
(lines 224-285 of program.py). -/
def omf_types_message : Json :=
  Json.arr [
    Json.obj [
      ("id", Json.str "RemoteAssets.RootType"),
      ("classification", Json.str "static"),
      ("type", Json.str "object"),
      ("description", Json.str "Root remote asset type"),
      ("properties", Json.obj [
        ("index", Json.obj [("type", Json.str "string"), ("isindex", Json.bool true)]),
        ("name", Json.obj [("type", Json.str "string"), ("isname", Json.bool true)])])],
    Json.obj [
      ("id", Json.str "RemoteAssets.FuelPumpType"),
      ("classification", Json.str "static"),
      ("type", Json.str "object"),
      ("description", Json.str "Remote pump asset type"),
      ("properties", Json.obj [
        ("index", Json.obj [("type", Json.str "string"), ("isindex", Json.bool true)]),
        ("name", Json.obj [("type", Json.str "string"), ("isname", Json.bool true)]),
        ("Desctiption", Json.obj [("type", Json.str "string"),
          ("description", Json.str "Description of the asset")]),
        ("Location", Json.obj [("type", Json.str "string"),
          ("description", Json.str "Location of the asset")])])],
    Json.obj [
      ("id", Json.str TYPE_ID),
      ("name", Json.str "Temperature Float Type"),
      ("classification", Json.str "dynamic"),
      ("type", Json.str "object"),
      ("properties", Json.obj [
        ("Timestamp", Json.obj [("format", Json.str "date-time"),
          ("type", Json.str "string"), ("isindex", Json.bool true)]),
        ("Temperature", Json.obj [("type", Json.str "number"),
          ("description", Json.str "Temperature readings"),
          ("uom", Json.str "°F")])])]]

/-- The OMF container-message payload sent by `one_time_send_container`
(lines 288-297 of program.py). -/
def omf_container_message : Json :=
  Json.arr [
    Json.obj [
      ("id", Json.str CONTAINER_ID),
      ("name", Json.str "Temperature"),
      ("typeid", Json.str TYPE_ID),
      ("description", Json.str "Container holds temperature measurements")]]

/-- The OMF data-message payload sent by `one_time_send_data`
(lines 300-347 of program.py): static assets and AF links. -/
def omf_static_data_message : Json :=
  Json.arr [
    Json.obj [
      ("typeid", Json.str "RemoteAssets.RootType"),
      ("values", Json.arr [Json.obj [
        ("index", Json.str "RemoteAssets.Pumps.Root"),
        ("name", Json.str "Remote Fuel Pumps")]])],
    Json.obj [
      ("typeid", Json.str "RemoteAssets.FuelPumpType"),
      ("values", Json.arr [Json.obj [
        ("index", Json.str "RemoteAssets.Pump.SL6658"),
        ("name", Json.str "SL6658 Pump"),
        ("Desctiption", Json.str "Fuel pump asset"),
        ("Location", Json.str "SLTC, San Leandro, California")]])],
    Json.obj [
      ("typeid", Json.str "__Link"),
      ("values", Json.arr [
        Json.obj [
          ("source", Json.obj [("typeid", Json.str "RemoteAssets.RootType"),
            ("index", Json.str "RemoteAssets.Pumps.Root")]),
          ("target", Json.obj [("typeid", Json.str "RemoteAssets.FuelPumpType"),
            ("index", Json.str "RemoteAssets.Pump.SL6658")])],
        Json.obj [
          ("source", Json.obj [("typeid", Json.str "RemoteAssets.FuelPumpType"),
            ("index", Json.str "RemoteAssets.Pump.SL6658")]),
          ("target", Json.obj [("containerid", Json.str CONTAINER_ID)])]])]]

/-- Function `one_time_send_type` of program.py. -/
def one_time_send_type (o : TokenOracle) (now : ℚ) (resp : Int × String)
    (e : Endpoint) (action : String) :
    Except SendError Unit × Endpoint × List Event :=
  send_message_to_omf_endpoint o now resp e "type" omf_types_message action

/-- Function `one_time_send_container` of program.py. -/
def one_time_send_container (o : TokenOracle) (now : ℚ) (resp : Int × String)
    (e : Endpoint) (action : String) :
    Except SendError Unit × Endpoint × List Event :=
  send_message_to_omf_endpoint o now resp e "container" omf_container_message action

/-- Function `one_time_send_data` of program.py. -/
def one_time_send_data (o : TokenOracle) (now : ℚ) (resp : Int × String)
    (e : Endpoint) (action : String) :
    Except SendError Unit × Endpoint × List Event :=
  send_message_to_omf_endpoint o now resp e "data" omf_static_data_message action

/-- Function `one_time_send_creates` of program.py (lines 187-191): type, then
container, then data, with `action = create`; the first raised exception
propagates and aborts the rest.  `resp` gives the HTTP response each message
type would receive.  The third component records the
(message type, action) pairs for which a send was attempted, in order. -/
def one_time_send_creates (o : TokenOracle) (now : ℚ) (resp : String → Int × String)
    (e : Endpoint) :
    Except SendError Unit × Endpoint × List (String × String) :=
  match one_time_send_type o now (resp "type") e "create" with
  | (.error err, e1, _) => (.error err, e1, [("type", "create")])
  | (.ok _, e1, _) =>
    match one_time_send_container o now (resp "container") e1 "create" with
    | (.error err, e2, _) => (.error err, e2, [("type", "create"), ("container", "create")])
    | (.ok _, e2, _) =>
      match one_time_send_data o now (resp "data") e2 "create" with
      | (.error err, e3, _) =>
        (.error err, e3, [("type", "create"), ("container", "create"), ("data", "create")])
      | (.ok _, e3, _) =>
        (.ok (), e3, [("type", "create"), ("container", "create"), ("data", "create")])

/-- Function `one_time_send_deletes` of program.py (lines 194-221): data, then
container, then type, with `action = delete`; each send sits in its own
`try/except` that prints and swallows the exception, so every later delete
is attempted and the function never raises (return type carries no
`Except`).  Endpoint-state mutations of each step persist into the next.
The third component records the attempted (message type, action) pairs. -/
def one_time_send_deletes (o : TokenOracle) (now : ℚ) (resp : String → Int × String)
    (e : Endpoint) :
    Unit × Endpoint × List (String × String) :=
  let r1 := one_time_send_data o now (resp "data") e "delete"
  let r2 := one_time_send_container o now (resp "container") r1.2.1 "delete"
  let r3 := one_time_send_type o now (resp "type") r2.2.1 "delete"
  ((), r3.2.1, [("data", "delete"), ("container", "delete"), ("type", "delete")])

/-- Function `get_current_time` of program.py (line 389):
`datetime.datetime.utcnow().isoformat() + 'Z'`.  `now_iso` stands for the
ISO-8601 string `isoformat()` produces for the current UTC instant. -/
def get_current_time (now_iso : String) : String :=
  now_iso ++ "Z"

/-- Function `create_data_value` of program.py (lines 350-362). -/
def create_data_value (now_iso : String) (value : ℚ) : Json :=
  Json.arr [
    Json.obj [
      ("containerid", Json.str CONTAINER_ID),
      ("values", Json.arr [Json.obj [
        ("Timestamp", Json.str (get_current_time now_iso)),
        ("Temperature", Json.num value)]])]]

/-- Accumulating decimal evaluation of a digit run; `none` on the first
non-digit character. -/
def digits_val : List Char → Nat → Option Nat
  | [], acc => some acc
  | c :: cs, acc =>
    if c.isDigit then digits_val cs (acc * 10 + (c.toNat - 48)) else none

/-- Python `int(s)` restricted to optionally-minus-signed decimal digit
strings (the shape sensor readings take); `none` models the `ValueError`
raised on anything else. -/
def str_to_int (s : String) : Option Int :=
  match s.data with
  | [] => none
  | '-' :: cs =>
    match cs with
    | [] => none
    | _ => (digits_val cs 0).map (fun n => -(n : Int))
  | cs => (digits_val cs 0).map (fun n => (n : Int))

/-- The measurement handling of one iteration of `main`'s sampling loop
(lines 506-511 of program.py): the `ERROR_STRING` sentinel skips the send;
otherwise `value = int(measurement)/10` (Python true division, modelled
over ℚ) and the message is `create_data_value(value)`.  `none` means no
data message is built this tick. -/
def main_loop_tick (now_iso : String) (measurement : String) : Option Json :=
  if measurement = ERROR_STRING then none
  else
    match str_to_int measurement with
    | some n => some (create_data_value now_iso ((n : ℚ) / 10))
    | none => none

/-- The `while` condition of `main`'s sampling loop (line 498 of
program.py): `count == 0 or ((not test) and count < iterationCount)`. -/
def loop_cond (test : Bool) (iterationCount count : Int) : Bool :=
  count == 0 || (!test && decide (count < iterationCount))

/-- One `MainStep` per observable phase of `main`'s per-endpoint
processing. -/
inductive MainStep
  | creates
  | dataSend
  | deletes
deriving DecidableEq, Repr

/-- The sampling `while` loop of `main` (lines 496-515 of program.py),
fuel-indexed: starting at `count`, emit one `dataSend` per iteration taken
while `loop_cond` holds, incrementing `count` each time. -/
def sampling_loop (test : Bool) (iterationCount : Int) : Nat → Int → List MainStep
  | 0, _ => []
  | fuel + 1, count =>
    if loop_cond test iterationCount count then
      MainStep.dataSend :: sampling_loop test iterationCount fuel (count + 1)
    else []

/-- Processing of one selected endpoint in `main` (lines 494-518 of
program.py): `one_time_send_creates`, the sampling loop from `count = 0`,
then `one_time_send_deletes` exactly when `test` is set. -/
def process_endpoint (test : Bool) (iterationCount : Int) (fuel : Nat) : List MainStep :=
  MainStep.creates :: sampling_loop test iterationCount fuel 0 ++
    (if test then [MainStep.deletes] else [])

/-- One endpoint dictionary as read from `appsettings.json`, before
`get_appsettings` normalises it; `none` models both a missing key and an
explicit JSON `null` for the three optional fields. -/
structure RawEndpoint where
  endpointType : String
  resource : String
  apiVersion : String
  tenantId : String
  namespaceId : String
  clientId : String
  clientSecret : String
  username : String
  password : String
  selected : Bool
  verifySSL : Option Bool
  useCompression : Option Bool
  webRequestTimeoutSeconds : Option Int
deriving DecidableEq, Repr

/-- The string-to-enum conversion `EndpointTypes(value)` of Python's enum
machinery; `none` models the `ValueError` it raises on an unknown value. -/
def endpoint_types_of_string (s : String) : Option EndpointTypes :=
  if s = "ADH" then some .ADH
  else if s = "EDS" then some .EDS
  else if s = "PI" then some .PI
  else none

/-- The per-endpoint body of `get_appsettings` (lines 420-459 of
program.py).  For the literal string `OCS` only the local variable
`endpoint_type` is set to `EndpointTypes.ADH`; the stored
`endpoint["EndpointType"]` keeps the raw string.  For every other string the
stored field is converted through `EndpointTypes(...)`, which raises
`ValueError` on unknown values.  Derived URLs and the three optional-field
defaults follow the local `endpoint_type`. -/
def load_endpoint (r : RawEndpoint) : Except String Endpoint :=
  let converted : Except String (EndpointTypeField × EndpointTypes) :=
    if r.endpointType = "OCS" then
      .ok (.str "OCS", .ADH)
    else
      match endpoint_types_of_string r.endpointType with
      | some t => .ok (.enum t, t)
      | none => .error "ValueError"
  match converted with
  | .error m => .error m
  | .ok (stored, endpoint_type) =>
    let base_endpoint :=
      match endpoint_type with
      | .ADH => r.resource ++ "/api/" ++ r.apiVersion ++ "/tenants/" ++ r.tenantId ++
          "/namespaces/" ++ r.namespaceId
      | .EDS => r.resource ++ "/api/" ++ r.apiVersion ++ "/tenants/default/namespaces/default"
      | .PI => r.resource
    .ok {
      endpointType := stored
      resource := r.resource
      apiVersion := r.apiVersion
      tenantId := r.tenantId
      namespaceId := r.namespaceId
      clientId := r.clientId
      clientSecret := r.clientSecret
      username := r.username
      password := r.password
      selected := r.selected
      verifySSL := r.verifySSL.getD true
      useCompression := r.useCompression.getD true
      webRequestTimeoutSeconds := r.webRequestTimeoutSeconds.getD 30
      baseEndpoint := base_endpoint
      omfEndpoint := base_endpoint ++ "/omf"
      token := none
      expiration := none }

theorem is_adh_field_eq_false {f : EndpointTypeField} :
    is_adh_field f = false ↔ f ≠ EndpointTypeField.enum .ADH := by
  cases f with
  | str s => simp [is_adh_field]
  | enum t => cases t <;> simp [is_adh_field]

theorem get_token_endpointType (o : TokenOracle) (now : ℚ) (e : Endpoint) :
    (get_token o now e).2.1.endpointType = e.endpointType := by
  unfold get_token get_token_fetch
  repeat' split
  all_goals rfl

/-- A sample ADH endpoint configuration, as `get_appsettings` would
populate it, with an empty token cache. -/
def endpoint_adh : Endpoint where
  endpointType := .enum .ADH
  resource := "https://res"
  apiVersion := "v1"
  tenantId := "tid"
  namespaceId := "nid"
  clientId := "cid"
  clientSecret := "sec"
  username := ""
  password := ""
  selected := true
  verifySSL := true
  useCompression := true
  webRequestTimeoutSeconds := 30
  baseEndpoint := "https://res/api/v1/tenants/tid/namespaces/nid"
  omfEndpoint := "https://res/api/v1/tenants/tid/namespaces/nid/omf"
  token := none
  expiration := none

/-- The sample ADH endpoint with a populated token cache. -/
def endpoint_adh_cached : Endpoint :=
  { endpoint_adh with token := some "cachedtok", expiration := some 1000 }

/-- A sample EDS endpoint configuration. -/
def endpoint_eds : Endpoint :=
  { endpoint_adh with
    endpointType := EndpointTypeField.enum .EDS
    baseEndpoint := "https://res/api/v1/tenants/default/namespaces/default"
    omfEndpoint := "https://res/api/v1/tenants/default/namespaces/default/omf" }

/-- An oracle where discovery and the token POST both behave. -/
def oracle_good : TokenOracle where
  discovery :=
    { status := 200, body := "",
      tokenEndpoint := some { scheme := "https", url := "https://res/identity/token" } }
  tokenResp := .parsed (some 3600) (some "tok123")

/-- An oracle whose discovery GET answers 500. -/
def oracle_fail : TokenOracle where
  discovery := { status := 500, body := "boom", tokenEndpoint := none }
  tokenResp := .parseError

/-- An oracle whose discovery document points at a non-https token URL. -/
def oracle_bad_scheme : TokenOracle where
  discovery :=
    { status := 200, body := "",
      tokenEndpoint := some { scheme := "http", url := "http://res/identity/token" } }
  tokenResp := .parsed (some 3600) (some "tok123")

/-- C10: `get_token` is atomic with respect to the token cache: every
failing call leaves the endpoint (hence its `token` and `expiration` cache
fields) exactly as it was, and the endpoint changes only on a call that
returns a token. -/
theorem C10_get_token_cache_atomic (o : TokenOracle) (now : ℚ) (e : Endpoint) :
    ((∃ err, (get_token o now e).1 = .error err) → (get_token o now e).2.1 = e) ∧
    ((get_token o now e).2.1 ≠ e → ∃ t, (get_token o now e).1 = .ok t) := by
  unfold get_token get_token_fetch
  repeat' split
  all_goals simp

theorem C10_witness :
    (∃ err, (get_token oracle_fail 0 endpoint_adh).1 = .error err) ∧
    (get_token oracle_fail 0 endpoint_adh).2.1 = endpoint_adh := by
  have h : (∃ err, (get_token oracle_fail 0 endpoint_adh).1 = .error err) :=
    ⟨.discoveryFailed 500 "boom", by rfl⟩
  exact ⟨h, (C10_get_token_cache_atomic oracle_fail 0 endpoint_adh).1 h⟩

/-- C3: for an ADH endpoint, a cached token whose expiry is strictly more
than 5 minutes after `now` is returned with zero HTTP calls; on a cache
miss with well-behaved discovery and token responses, `get_token` issues
exactly one discovery GET and one token POST, caches the token with
`expiration = expires_in + now`, and returns the new token; for every
non-ADH endpoint it returns the empty string with zero HTTP calls. -/
theorem C3_get_token_cache (o : TokenOracle) (now : ℚ) (e : Endpoint) :
    (∀ exp t, e.endpointType = EndpointTypeField.enum .ADH → e.expiration = some exp →
      exp - now > 5 * 60 → e.token = some t →
      get_token o now e = (.ok t, e, [])) ∧
    (e.endpointType ≠ EndpointTypeField.enum .ADH →
      get_token o now e = (.ok "", e, [])) ∧
    (∀ p x tok, e.endpointType = EndpointTypeField.enum .ADH →
      (e.expiration = none ∨ ∃ exp, e.expiration = some exp ∧ exp - now ≤ 5 * 60) →
      200 ≤ o.discovery.status → o.discovery.status < 300 →
      o.discovery.tokenEndpoint = some p →
      p.scheme = "https" → py_startswith p.url e.resource = true →
      o.tokenResp = .parsed (some x) (some tok) →
      get_token o now e =
        (.ok tok, { e with expiration := some (x + now), token := some tok },
         [Event.httpGet (e.resource ++ "/identity/.well-known/openid-configuration"),
          Event.tokenPost p.url])) := by
  refine ⟨?_, ?_, ?_⟩
  · intro exp t he hexp hfresh htok
    simp [get_token, he, hexp, htok, is_adh_field, hfresh]
  · intro he
    simp [get_token, is_adh_field_eq_false.mpr he]
  · intro p x tok he hmiss h200 h300 hte hscheme hstart htr
    have hmain : get_token o now e = get_token_fetch o now e := by
      rcases hmiss with hnone | ⟨exp, hexp, hstale⟩
      · simp [get_token, he, hnone, is_adh_field]
      · simp [get_token, he, hexp, is_adh_field, not_lt_of_le hstale]
    rw [hmain]
    simp [get_token_fetch, hte, hscheme, hstart, htr]
    constructor
    · omega
    · omega

theorem C3_witness :
    get_token oracle_good 0 endpoint_adh_cached = (.ok "cachedtok", endpoint_adh_cached, []) ∧
    get_token oracle_good 0 endpoint_eds = (.ok "", endpoint_eds, []) ∧
    get_token oracle_good 0 endpoint_adh =
      (.ok "tok123",
       { endpoint_adh with expiration := some ((3600 : ℚ) + 0), token := some "tok123" },
       [Event.httpGet (endpoint_adh.resource ++ "/identity/.well-known/openid-configuration"),
        Event.tokenPost "https://res/identity/token"]) := by
  refine ⟨?_, ?_, ?_⟩
  · exact (C3_get_token_cache oracle_good 0 endpoint_adh_cached).1 1000 "cachedtok" rfl rfl
      (by norm_num) rfl
  · exact (C3_get_token_cache oracle_good 0 endpoint_eds).2.1 (by decide)
  · exact (C3_get_token_cache oracle_good 0 endpoint_adh).2.2
      { scheme := "https", url := "https://res/identity/token" } 3600 "tok123" rfl
      (Or.inl rfl) (by decide) (by decide) rfl rfl (by decide) rfl

/-- C9: a credential POST appears in `get_token`'s trace only for a
discovered token endpoint whose scheme is `https` and whose URL starts with
the configured resource; and on the fetch path, if either check fails,
`get_token` raises the assertion failure after only the discovery GET,
never POSTing the client credentials. -/
theorem C9_token_url_validation (o : TokenOracle) (now : ℚ) (e : Endpoint) :
    (∀ u, Event.tokenPost u ∈ (get_token o now e).2.2 →
      ∃ p, o.discovery.tokenEndpoint = some p ∧ u = p.url ∧
        p.scheme = "https" ∧ py_startswith p.url e.resource = true) ∧
    (∀ p, e.endpointType = EndpointTypeField.enum .ADH →
      (e.expiration = none ∨ ∃ exp, e.expiration = some exp ∧ exp - now ≤ 5 * 60) →
      200 ≤ o.discovery.status → o.discovery.status < 300 →
      o.discovery.tokenEndpoint = some p →
      (p.scheme ≠ "https" ∨ py_startswith p.url e.resource = false) →
      get_token o now e = (.error .assertionFailed, e,
        [Event.httpGet (e.resource ++ "/identity/.well-known/openid-configuration")])) := by
  constructor
  · intro u hu
    unfold get_token get_token_fetch at hu
    repeat' split at hu
    all_goals simp at hu
    all_goals subst hu
    all_goals exact ⟨_, by assumption, rfl, by tauto, by tauto⟩
  · intro p he hmiss h200 h300 hte hbad
    have hmain : get_token o now e = get_token_fetch o now e := by
      rcases hmiss with hnone | ⟨exp, hexp, hstale⟩
      · simp [get_token, he, hnone, is_adh_field]
      · simp [get_token, he, hexp, is_adh_field, not_lt_of_le hstale]
    have hrange : ¬ (o.discovery.status < 200 ∨ 300 ≤ o.discovery.status) := by omega
    rw [hmain]
    unfold get_token_fetch
    rcases hbad with hscheme | hstart
    · simp [hte, hscheme, hrange]
    · by_cases hs : p.scheme = "https"
      · simp [hte, hs, hstart, hrange]
      · simp [hte, hs, hrange]

theorem C9_witness :
    (∃ p, oracle_good.discovery.tokenEndpoint = some p ∧
      "https://res/identity/token" = p.url ∧ p.scheme = "https" ∧
      py_startswith p.url endpoint_adh.resource = true) ∧
    get_token oracle_bad_scheme 0 endpoint_adh =
      (.error .assertionFailed, endpoint_adh,
       [Event.httpGet (endpoint_adh.resource ++ "/identity/.well-known/openid-configuration")]) := by
  constructor
  · exact (C9_token_url_validation oracle_good 0 endpoint_adh).1 "https://res/identity/token"
      (List.mem_cons_of_mem _ (List.mem_cons_self _ _))
  · exact (C9_token_url_validation oracle_bad_scheme 0 endpoint_adh).2
      { scheme := "http", url := "http://res/identity/token" } rfl (Or.inl rfl)
      (by decide) (by decide) rfl (Or.inl (by decide))

theorem mem_validate_headers {kv : String × String} {hs : List (String × String)}
    (h : kv ∈ validate_headers hs) : kv.1 ∈ allowed_header_keys := by
  rw [validate_headers, List.mem_filter] at h
  simpa using h.2

/-- C4: every key of a header map returned by `get_headers` lies in the
fixed allow-list
{Authorization, messagetype, action, messageformat, omfversion,
x-requested-with, compression}; no other key ever appears. -/
theorem C4_header_allowlist (o : TokenOracle) (now : ℚ) (e : Endpoint)
    (compression message_type action : String) (hs : List (String × String))
    (e2 : Endpoint) (calls : List Event)
    (h : get_headers o now e compression message_type action = (.ok hs, e2, calls)) :
    ∀ kv ∈ hs, kv.1 ∈ allowed_header_keys := by
  intro kv hkv
  unfold get_headers at h
  split at h
  · split at h
    all_goals simp at h
    obtain ⟨h1, -, -⟩ := h
    subst h1
    exact mem_validate_headers hkv
  · split at h
    · simp at h
      obtain ⟨h1, -, -⟩ := h
      subst h1
      exact mem_validate_headers hkv
    · simp at h
      obtain ⟨h1, -, -⟩ := h
      subst h1
      exact mem_validate_headers hkv

theorem C4_witness :
    ("compression", "gzip").1 ∈ allowed_header_keys :=
  C4_header_allowlist oracle_good 0 endpoint_eds "gzip" "type" "create"
    [("messagetype", "type"), ("action", "create"), ("messageformat", "JSON"),
     ("omfversion", "1.1"), ("compression", "gzip")] endpoint_eds [] (by rfl)
    ("compression", "gzip") (by simp)

theorem omf_response_check_spec (message_type : String) (resp : Int × String)
    (e : Endpoint) (tr : List Event) :
    ((omf_response_check message_type resp e tr).1 = .ok () ↔
      (resp.1 = 409 ∨ (200 ≤ resp.1 ∧ resp.1 < 300))) ∧
    ((resp.1 ≠ 409 ∧ (resp.1 < 200 ∨ 300 ≤ resp.1)) →
      (omf_response_check message_type resp e tr).1 =
        Except.error (.rejected message_type resp.1 resp.2)) := by
  unfold omf_response_check
  split_ifs with h1 h2
  · refine ⟨by simp [h1], ?_⟩
    intro hc
    exact absurd h1 hc.1
  · constructor
    · constructor
      · intro hcon
        simp at hcon
      · intro hor
        exfalso
        rcases hor with h409 | hr
        · exact h1 h409
        · omega
    · intro _
      rfl
  · constructor
    · simp
      omega
    · intro hc
      exact absurd hc.2 h2

theorem send_message_reaches_check (o : TokenOracle) (now : ℚ) (resp : Int × String)
    (e : Endpoint) (k : EndpointTypes) (message_type : String) (payload : Json)
    (action : String) (hk : e.endpointType = EndpointTypeField.enum k)
    (t : String) (ht : (get_token o now e).1 = .ok t) :
    ∃ e2 tr, send_message_to_omf_endpoint o now resp e message_type payload action =
      omf_response_check message_type resp e2 tr := by
  have hety := get_token_endpointType o now e
  unfold send_message_to_omf_endpoint get_headers
  cases k with
  | ADH =>
    rcases hgt : get_token o now e with ⟨r, e2, calls⟩
    rw [hgt] at ht hety
    simp only at ht hety
    have heq : e2.endpointType = EndpointTypeField.enum .ADH := by rw [hety, hk]
    cases r with
    | error err => exact absurd ht (by simp)
    | ok t2 => simp [hk, is_adh_field, hgt, heq]
  | EDS => simp [hk, is_adh_field]
  | PI => simp [hk, is_adh_field]

/-- C2: with a well-typed endpoint kind and a working token path, a send
returns normally exactly when the HTTP status is 409 or lies in [200,300);
any other status raises the rejection error carrying the message type, the
status code and the response body. -/
theorem C2_send_status_mapping (o : TokenOracle) (now : ℚ) (resp : Int × String)
    (e : Endpoint) (k : EndpointTypes) (message_type : String) (payload : Json)
    (action : String) (hk : e.endpointType = EndpointTypeField.enum k)
    (htok : ∃ t, (get_token o now e).1 = .ok t) :
    ((send_message_to_omf_endpoint o now resp e message_type payload action).1 = .ok () ↔
      (resp.1 = 409 ∨ (200 ≤ resp.1 ∧ resp.1 < 300))) ∧
    ((resp.1 ≠ 409 ∧ (resp.1 < 200 ∨ 300 ≤ resp.1)) →
      (send_message_to_omf_endpoint o now resp e message_type payload action).1 =
        Except.error (.rejected message_type resp.1 resp.2)) := by
  obtain ⟨t, ht⟩ := htok
  obtain ⟨e2, tr, hsend⟩ :=
    send_message_reaches_check o now resp e k message_type payload action hk t ht
  rw [hsend]
  exact omf_response_check_spec message_type resp e2 tr

theorem C2_witness :
    (send_message_to_omf_endpoint oracle_good 0 (409, "exists") endpoint_eds "type"
      omf_types_message "create").1 = .ok () ∧
    (send_message_to_omf_endpoint oracle_good 0 (400, "bad") endpoint_eds "type"
      omf_types_message "create").1 = Except.error (.rejected "type" 400 "bad") := by
  constructor
  · exact (C2_send_status_mapping oracle_good 0 (409, "exists") endpoint_eds .EDS "type"
      omf_types_message "create" rfl ⟨"", rfl⟩).1.mpr (Or.inl rfl)
  · exact (C2_send_status_mapping oracle_good 0 (400, "bad") endpoint_eds .EDS "type"
      omf_types_message "create" rfl ⟨"", rfl⟩).2 ⟨by decide, Or.inr (by decide)⟩

theorem get_token_no_omfPost (o : TokenOracle) (now : ℚ) (e : Endpoint)
    (u : String) (hs : List (String × String)) (b : MsgBody)
    (v : Option Bool) (ba : Option (String × String)) :
    Event.omfPost u hs b v ba ∉ (get_token o now e).2.2 := by
  unfold get_token get_token_fetch
  repeat' split
  all_goals simp

theorem get_headers_no_omfPost (o : TokenOracle) (now : ℚ) (e : Endpoint)
    (c mt a u : String) (hs : List (String × String)) (b : MsgBody)
    (v : Option Bool) (ba : Option (String × String)) :
    Event.omfPost u hs b v ba ∉ (get_headers o now e c mt a).2.2 := by
  unfold get_headers
  split
  · rcases hgt : get_token o now e with ⟨r, e2, calls⟩
    have hnp := get_token_no_omfPost o now e u hs b v ba
    rw [hgt] at hnp
    cases r <;> simpa using hnp
  · split <;> simp

theorem omf_response_check_trace (mt : String) (resp : Int × String)
    (e : Endpoint) (tr : List Event) :
    (omf_response_check mt resp e tr).2.2 = tr := by
  unfold omf_response_check
  split_ifs <;> rfl

theorem compression_mem_of_gzip (mt a : String) (extra : List (String × String)) :
    ("compression", "gzip") ∈ validate_headers (base_headers "gzip" mt a ++ extra) := by
  apply List.mem_filter.mpr
  refine ⟨List.mem_append_left _ ?_, by decide⟩
  simp [base_headers]

theorem compression_not_mem (c mt a : String) (hc : c ≠ "gzip")
    (extra : List (String × String)) (hextra : ∀ w, ("compression", w) ∉ extra)
    (v : String) :
    ("compression", v) ∉ validate_headers (base_headers c mt a ++ extra) := by
  intro hmem
  rw [validate_headers, List.mem_filter] at hmem
  rcases List.mem_append.mp hmem.1 with hbase | hex
  · simp [base_headers, hc] at hbase
  · exact hextra v hex

theorem get_headers_ok_shape (o : TokenOracle) (now : ℚ) (e : Endpoint)
    (c mt a : String) (hs2 : List (String × String)) (e2 : Endpoint)
    (calls : List Event)
    (h : get_headers o now e c mt a = (.ok hs2, e2, calls)) :
    ∃ extra, (∀ w, ("compression", w) ∉ extra) ∧
      hs2 = validate_headers (base_headers c mt a ++ extra) := by
  unfold get_headers at h
  split at h
  · rcases hgt : get_token o now e with ⟨r, e3, calls3⟩
    rw [hgt] at h
    cases r with
    | ok t =>
      simp at h
      exact ⟨[("Authorization", "Bearer " ++ t)], by simp, h.1.symm⟩
    | error err => simp at h
  · split at h
    · simp at h
      exact ⟨[("x-requested-with", "xmlhttprequest")], by simp, h.1.symm⟩
    · simp at h
      exact ⟨[], by simp, by rw [List.append_nil]; exact h.1.symm⟩

/-- C7: every OMF POST issued by `send_message_to_omf_endpoint` carries,
when `UseCompression` is set, the gzip compression of the UTF-8 JSON
encoding of the payload together with a `compression=gzip` header, and
otherwise the raw JSON text with no `compression` header at all. -/
theorem C7_compression (o : TokenOracle) (now : ℚ) (resp : Int × String) (e : Endpoint)
    (message_type : String) (payload : Json) (action : String)
    (u : String) (hs : List (String × String)) (b : MsgBody) (v : Option Bool)
    (ba : Option (String × String))
    (hmem : Event.omfPost u hs b v ba ∈
      (send_message_to_omf_endpoint o now resp e message_type payload action).2.2) :
    (e.useCompression = true →
      b = MsgBody.gzippedJsonUtf8 payload ∧ ("compression", "gzip") ∈ hs) ∧
    (e.useCompression = false →
      b = MsgBody.rawJson payload ∧ ∀ w, ("compression", w) ∉ hs) := by
  cases hu : e.useCompression with
  | true =>
    simp only [send_message_to_omf_endpoint, hu, if_true] at hmem
    rcases hgh : get_headers o now e "gzip" message_type action with ⟨r, e2, calls⟩
    rw [hgh] at hmem
    have hnoc : Event.omfPost u hs b v ba ∉ calls := by
      have hh := get_headers_no_omfPost o now e "gzip" message_type action u hs b v ba
      rw [hgh] at hh
      simpa using hh
    cases r with
    | error err => simp at hmem; exact absurd hmem hnoc
    | ok hs2 =>
      obtain ⟨extra, hextra, hshape⟩ := get_headers_ok_shape o now e _ _ _ hs2 e2 calls hgh
      refine ⟨fun _ => ?_, fun hf => absurd hf (by decide)⟩
      cases he2 : e2.endpointType with
      | str s =>
        simp [he2] at hmem
        exact absurd hmem hnoc
      | enum k =>
        cases k
        all_goals simp [he2, omf_response_check_trace] at hmem
        all_goals obtain ⟨h1, h2, h3, h4, h5⟩ := hmem.resolve_left hnoc
        all_goals subst h2
        all_goals rw [h3, hshape]
        all_goals exact ⟨rfl, compression_mem_of_gzip message_type action extra⟩
  | false =>
    simp only [send_message_to_omf_endpoint, hu] at hmem
    simp only [Bool.false_eq_true, if_false] at hmem
    rcases hgh : get_headers o now e "none" message_type action with ⟨r, e2, calls⟩
    rw [hgh] at hmem
    have hnoc : Event.omfPost u hs b v ba ∉ calls := by
      have hh := get_headers_no_omfPost o now e "none" message_type action u hs b v ba
      rw [hgh] at hh
      simpa using hh
    cases r with
    | error err => simp at hmem; exact absurd hmem hnoc
    | ok hs2 =>
      obtain ⟨extra, hextra, hshape⟩ := get_headers_ok_shape o now e _ _ _ hs2 e2 calls hgh
      refine ⟨fun ht => absurd ht (by decide), fun _ => ?_⟩
      cases he2 : e2.endpointType with
      | str s =>
        simp [he2] at hmem
        exact absurd hmem hnoc
      | enum k =>
        cases k
        all_goals simp [he2, omf_response_check_trace] at hmem
        all_goals obtain ⟨h1, h2, h3, h4, h5⟩ := hmem.resolve_left hnoc
        all_goals subst h2
        all_goals rw [h3, hshape]
        all_goals exact ⟨rfl, fun w =>
          compression_not_mem "none" message_type action (by decide) extra hextra w⟩

theorem C7_witness :
    MsgBody.gzippedJsonUtf8 (Json.num 35) = MsgBody.gzippedJsonUtf8 (Json.num 35) ∧
    ("compression", "gzip") ∈
      [("messagetype", "data"), ("action", "create"), ("messageformat", "JSON"),
       ("omfversion", "1.1"), ("compression", "gzip")] :=
  (C7_compression oracle_good 0 (200, "") endpoint_eds "data" (Json.num 35) "create"
    endpoint_eds.omfEndpoint
    [("messagetype", "data"), ("action", "create"), ("messageformat", "JSON"),
     ("omfversion", "1.1"), ("compression", "gzip")]
    (MsgBody.gzippedJsonUtf8 (Json.num 35)) none none
    (by
      have hsend : (send_message_to_omf_endpoint oracle_good 0 (200, "") endpoint_eds "data"
          (Json.num 35) "create").2.2 =
          [Event.omfPost endpoint_eds.omfEndpoint
            [("messagetype", "data"), ("action", "create"), ("messageformat", "JSON"),
             ("omfversion", "1.1"), ("compression", "gzip")]
            (MsgBody.gzippedJsonUtf8 (Json.num 35)) none none] := rfl
      rw [hsend]
      exact List.mem_singleton.mpr rfl)).1 rfl

/-- C6: `one_time_send_deletes` attempts the three delete sends in the
order data, container, type, for every failure pattern, never raising; and
`one_time_send_creates` sends creates in the order type, container, data,
its attempt list always being an initial segment of that order and the full order
exactly when it returns normally. -/
theorem C6_schema_lifecycle_order (o : TokenOracle) (now : ℚ)
    (resp : String → Int × String) (e : Endpoint) :
    (one_time_send_deletes o now resp e).2.2 =
      [("data", "delete"), ("container", "delete"), ("type", "delete")] ∧
    (∃ n, (one_time_send_creates o now resp e).2.2 =
      [("type", "create"), ("container", "create"), ("data", "create")].take n) ∧
    ((one_time_send_creates o now resp e).1 = .ok () →
      (one_time_send_creates o now resp e).2.2 =
        [("type", "create"), ("container", "create"), ("data", "create")]) := by
  refine ⟨rfl, ?_⟩
  unfold one_time_send_creates
  rcases h1 : one_time_send_type o now (resp "type") e "create" with ⟨r1, e1, t1⟩
  cases r1 with
  | error err => exact ⟨⟨1, rfl⟩, fun hok => absurd hok (by simp)⟩
  | ok u =>
    dsimp only
    rcases h2 : one_time_send_container o now (resp "container") e1 "create" with ⟨r2, e2, t2⟩
    cases r2 with
    | error err => exact ⟨⟨2, rfl⟩, fun hok => absurd hok (by simp)⟩
    | ok u2 =>
      dsimp only
      rcases h3 : one_time_send_data o now (resp "data") e2 "create" with ⟨r3, e3, t3⟩
      cases r3 with
      | error err => exact ⟨⟨3, rfl⟩, fun hok => absurd hok (by simp)⟩
      | ok u3 => exact ⟨⟨3, rfl⟩, fun _ => rfl⟩

theorem C6_witness :
    (one_time_send_deletes oracle_good 0 (fun _ => (200, "")) endpoint_eds).2.2 =
      [("data", "delete"), ("container", "delete"), ("type", "delete")] ∧
    (one_time_send_creates oracle_good 0 (fun _ => (200, "")) endpoint_eds).2.2 =
      [("type", "create"), ("container", "create"), ("data", "create")] := by
  refine ⟨(C6_schema_lifecycle_order oracle_good 0 (fun _ => (200, "")) endpoint_eds).1, ?_⟩
  exact (C6_schema_lifecycle_order oracle_good 0 (fun _ => (200, "")) endpoint_eds).2.2 (by rfl)

theorem sampling_loop_count (test : Bool) (ic : Int) :
    ∀ (fuel : Nat) (count : Int),
      (sampling_loop test ic fuel count).count MainStep.dataSend =
        (sampling_loop test ic fuel count).length := by
  intro fuel
  induction fuel with
  | zero => intro count; rfl
  | succ n ih =>
    intro count
    rw [sampling_loop]
    split
    · simp [List.count_cons, ih (count + 1)]
    · rfl

theorem sampling_loop_no_deletes (test : Bool) (ic : Int) :
    ∀ (fuel : Nat) (count : Int), MainStep.deletes ∉ sampling_loop test ic fuel count := by
  intro fuel
  induction fuel with
  | zero => intro count h; simp [sampling_loop] at h
  | succ n ih =>
    intro count h
    rw [sampling_loop] at h
    split at h
    · rcases List.mem_cons.mp h with hc | hc
      · cases hc
      · exact ih (count + 1) hc
    · simp at h

theorem sampling_loop_stops_in_test (ic : Int) (fuel : Nat) (count : Int)
    (h : count ≠ 0) : sampling_loop true ic fuel count = [] := by
  cases fuel with
  | zero => rfl
  | succ n =>
    rw [sampling_loop]
    rw [if_neg (by simp [loop_cond, h])]

theorem sampling_loop_length_production (ic : Int) :
    ∀ (fuel : Nat) (count : Int), 1 ≤ count → (ic - count).toNat ≤ fuel →
      (sampling_loop false ic fuel count).length = (ic - count).toNat := by
  intro fuel
  induction fuel with
  | zero =>
    intro count h1 h2
    simp [sampling_loop]
    omega
  | succ n ih =>
    intro count h1 h2
    rw [sampling_loop]
    by_cases hc : count < ic
    · rw [if_pos (by simp [loop_cond]; omega)]
      rw [List.length_cons, ih (count + 1) (by omega) (by omega)]
      omega
    · rw [if_neg (by simp [loop_cond]; omega)]
      simp
      omega

/-- C5 (amended): with enough fuel, the per-endpoint sampling loop of
`main` performs `max 1 iterationCount` data iterations in production mode
(so exactly `iterationCount` whenever `iterationCount ≥ 1`), exactly one in
test mode, and the deletes step is present exactly in test mode. -/
theorem C5_loop_iterations (test : Bool) (ic : Int) (fuel : Nat)
    (hfuel : ic.toNat + 1 ≤ fuel) :
    ((process_endpoint test ic fuel).count MainStep.dataSend =
      if test then 1 else max 1 ic.toNat) ∧
    (MainStep.deletes ∈ process_endpoint test ic fuel ↔ test = true) := by
  constructor
  · obtain ⟨n, rfl⟩ : ∃ n, fuel = n + 1 := ⟨fuel - 1, by omega⟩
    unfold process_endpoint
    rw [sampling_loop, if_pos (by simp [loop_cond])]
    cases test with
    | true =>
      rw [show (0 : ℤ) + 1 = 1 by norm_num, sampling_loop_stops_in_test ic n 1 (by omega)]
      norm_num [List.count_cons, List.count_append]
      simp
    | false =>
      have hlen := sampling_loop_length_production ic n 1 (by omega) (by omega)
      have hcnt := sampling_loop_count false ic n 1
      simp only [show (0 : ℤ) + 1 = 1 by norm_num]
      simp [List.count_cons, List.count_append]
      rw [hcnt, hlen]
      omega
  · unfold process_endpoint
    constructor
    · intro hmem
      rcases List.mem_cons.mp hmem with hc | hc
      · cases hc
      · rcases List.mem_append.mp hc with hl | hr
        · exact absurd hl (sampling_loop_no_deletes test ic fuel 0)
        · cases test with
          | true => rfl
          | false => simp at hr
    · intro ht
      subst ht
      simp

theorem C5_counterexample :
    (process_endpoint false 0 5).count MainStep.dataSend = 1 ∧ (1 : ℕ) ≠ 0 := by
  constructor
  · decide
  · decide

theorem C5_witness :
    (process_endpoint false 3 4).count MainStep.dataSend = 3 ∧
    MainStep.deletes ∉ process_endpoint false 3 4 := by
  have h := C5_loop_iterations false 3 4 (by decide)
  constructor
  · simpa using h.1
  · intro hmem
    exact absurd (h.2.mp hmem) (by decide)

/-- C8: a successfully acquired decimal reading is divided by 10 and
packaged as exactly one data record for the fixed container with exactly
one value entry whose timestamp is the current UTC instant's ISO string
suffixed with `Z`. -/
theorem C8_data_value_scaling (now_iso m : String) (n : Int)
    (hm : m ≠ ERROR_STRING) (hp : str_to_int m = some n) :
    main_loop_tick now_iso m =
      some (Json.arr [Json.obj [
        ("containerid", Json.str CONTAINER_ID),
        ("values", Json.arr [Json.obj [
          ("Timestamp", Json.str (now_iso ++ "Z")),
          ("Temperature", Json.num ((n : ℚ) / 10))]])]]) ∧
    ∃ s0, now_iso ++ "Z" = s0 ++ "Z" := by
  refine ⟨?_, ⟨now_iso, rfl⟩⟩
  simp [main_loop_tick, hm, hp, create_data_value, get_current_time]

theorem C8_witness :
    main_loop_tick "2026-10-12T00:00:00" "350" =
      some (Json.arr [Json.obj [
        ("containerid", Json.str CONTAINER_ID),
        ("values", Json.arr [Json.obj [
          ("Timestamp", Json.str ("2026-10-12T00:00:00" ++ "Z")),
          ("Temperature", Json.num ((350 : ℚ) / 10))]])]]) ∧
    (350 : ℚ) / 10 = 35 := by
  constructor
  · exact (C8_data_value_scaling "2026-10-12T00:00:00" "350" 350 (by decide) (by decide)).1
  · norm_num

/-- A raw appsettings endpoint with the given `EndpointType` string and
otherwise ADH-style fields. -/
def raw_sample (t : String) : RawEndpoint where
  endpointType := t
  resource := "https://res"
  apiVersion := "v1"
  tenantId := "tid"
  namespaceId := "nid"
  clientId := "cid"
  clientSecret := "sec"
  username := ""
  password := ""
  selected := true
  verifySSL := none
  useCompression := none
  webRequestTimeoutSeconds := none

/-- C1 (refuted, code bug): loading an `OCS` configuration leaves the
stored `EndpointType` as the raw string `OCS` (only the local variable and
the derived URLs follow ADH), so afterwards `get_token` returns the empty
string without any token flow, while the same configuration with `ADH`
acquires a token; and sending with the OCS-loaded endpoint performs no
HTTP POST and fails with the AttributeError of `response.status_code` on
the empty dict, while the ADH-loaded endpoint sends successfully.  The
behaviour is not identical end-to-end, contradicting the documented
intent ("using ADH type instead"). -/
theorem C1_ocs_divergence :
    load_endpoint (raw_sample "OCS") =
      .ok { endpoint_adh with endpointType := EndpointTypeField.str "OCS" } ∧
    load_endpoint (raw_sample "ADH") = .ok endpoint_adh ∧
    get_token oracle_good 0 { endpoint_adh with endpointType := EndpointTypeField.str "OCS" } =
      (.ok "", { endpoint_adh with endpointType := EndpointTypeField.str "OCS" }, []) ∧
    (get_token oracle_good 0 endpoint_adh).1 = .ok "tok123" ∧
    (get_token oracle_good 0 endpoint_adh).2.2.length = 2 ∧
    (send_message_to_omf_endpoint oracle_good 0 (200, "")
      { endpoint_adh with endpointType := EndpointTypeField.str "OCS" } "type"
      omf_types_message "create").1 = .error .attributeError ∧
    (send_message_to_omf_endpoint oracle_good 0 (200, "")
      { endpoint_adh with endpointType := EndpointTypeField.str "OCS" } "type"
      omf_types_message "create").2.2 = [] ∧
    (send_message_to_omf_endpoint oracle_good 0 (200, "") endpoint_adh "type"
      omf_types_message "create").1 = .ok () := by
  refine ⟨rfl, rfl, rfl, rfl, rfl, rfl, rfl, rfl⟩
